import Mathlib

/-!
Verification of the infrastructure declarations in `lib/demo-cdk-stack.ts`
and `bin/demo-cdk.ts`: a shallow embedding of the two CDK stacks
(`DemoCdkStack` and `SqlServerBahrainStack`) as pure record construction,
followed by theorems about the declared resource graph.
-/

namespace InfraDemo

/-- Subnet tiers of `ec2.SubnetType` used by the stacks. -/
inductive SubnetType
  | publicSubnet
  | privateWithEgress
  | privateIsolated
deriving DecidableEq, Repr

/-- One entry of a VPC `subnetConfiguration`. -/
structure SubnetConfig where
  name : String
  subnetType : SubnetType
  cidrMask : Nat
deriving DecidableEq, Repr

/-- `ec2.Vpc` construct properties as declared in the source. -/
structure Vpc where
  id : String
  maxAzs : Nat
  natGateways : Nat
  subnetConfiguration : List SubnetConfig
deriving DecidableEq, Repr

/-- A traffic source for an ingress rule (`ec2.Peer` / another security group). -/
inductive Peer
  | securityGroupRef (sgId : String)
  | anyIpv4
deriving DecidableEq, Repr

/-- `ec2.Port.tcp n`: a TCP port specification. -/
structure Port where
  tcpPort : Nat
deriving DecidableEq, Repr

def Port.tcp (n : Nat) : Port := ⟨n⟩

/-- One ingress permission added with `addIngressRule`. -/
structure IngressRule where
  source : Peer
  port : Port
  description : String
deriving DecidableEq, Repr

/-- `ec2.SecurityGroup` construct with its accumulated ingress rules. -/
structure SecurityGroup where
  id : String
  vpcId : String
  description : String
  allowAllOutbound : Bool
  ingressRules : List IngressRule
deriving DecidableEq, Repr

/-- `securityGroup.addIngressRule(source, port, description)`. -/
def SecurityGroup.addIngressRule (sg : SecurityGroup) (source : Peer)
    (port : Port) (description : String) : SecurityGroup :=
  { sg with ingressRules := sg.ingressRules ++ [⟨source, port, description⟩] }

/-- Database engines used by the stacks (`rds.DatabaseInstanceEngine`). -/
inductive DatabaseEngine
  | postgres (version : String)
  | sqlServerEe (version : String)
deriving DecidableEq, Repr

/-- EC2 instance classes named in the source. -/
inductive InstanceClass
  | t2 | t3 | m3 | m4 | c3 | c4 | r4 | r5
deriving DecidableEq, Repr

/-- EC2 instance sizes named in the source. -/
inductive InstanceSize
  | micro | large | xlarge | xlarge24
deriving DecidableEq, Repr

/-- `ec2.InstanceType.of(instanceClass, instanceSize)`. -/
structure InstanceType where
  instanceClass : InstanceClass
  instanceSize : InstanceSize
deriving DecidableEq, Repr

def InstanceType.of (c : InstanceClass) (s : InstanceSize) : InstanceType := ⟨c, s⟩

/-- `cdk.RemovalPolicy`. -/
inductive RemovalPolicy
  | destroy | retain | snapshot
deriving DecidableEq, Repr

/-- `rds.LicenseModel`. -/
inductive LicenseModel
  | licenseIncluded | bringYourOwnLicense | generalPublicLicense
deriving DecidableEq, Repr

/-- A `vpcSubnets` selection (`{ subnetType: ... }`). -/
structure SubnetSelection where
  subnetType : SubnetType
deriving DecidableEq, Repr

/-- `rds.DatabaseInstance` construct properties as declared in the source. -/
structure DatabaseInstance where
  id : String
  engine : DatabaseEngine
  instanceType : InstanceType
  vpcId : String
  vpcSubnets : SubnetSelection
  securityGroupIds : List String
  databaseName : Option String
  allocatedStorage : Nat
  maxAllocatedStorage : Nat
  multiAz : Bool
  licenseModel : Option LicenseModel
  deletionProtection : Bool
  removalPolicy : RemovalPolicy
deriving DecidableEq, Repr

/-- Options of one `cluster.addCapacity(id, {...})` call. -/
structure AddCapacityOptions where
  capacityId : String
  instanceType : InstanceType
  minCapacity : Nat
  maxCapacity : Nat
  desiredCapacity : Nat
deriving DecidableEq, Repr

/-- `ecs.Cluster` construct with its accumulated EC2 capacities. -/
structure Cluster where
  id : String
  vpcId : String
  clusterName : Option String
  containerInsights : Bool
  capacities : List AddCapacityOptions
deriving DecidableEq, Repr

/-- `cluster.addCapacity(id, options)`. -/
def Cluster.addCapacity (c : Cluster) (capacityId : String)
    (instanceType : InstanceType) (minCapacity maxCapacity desiredCapacity : Nat) :
    Cluster :=
  { c with capacities := c.capacities ++
      [⟨capacityId, instanceType, minCapacity, maxCapacity, desiredCapacity⟩] }

/-- A runtime-resolved attribute reference (a CDK token), used in outputs and
container environment variables. -/
inductive AttrRef
  | loadBalancerDns (serviceId : String)
  | vpcIdOf (vpcConstructId : String)
  | dbEndpointAddress (dbId : String)
  | dbEndpointPort (dbId : String)
  | asgNameOf (asgId : String)
  | clusterNameOf (clusterId : String)
deriving DecidableEq, Repr

/-- A `cdk.CfnOutput` declaration. -/
structure CfnOutput where
  id : String
  value : AttrRef
  description : String
deriving DecidableEq, Repr

/-- Health check set by `targetGroup.configureHealthCheck`. -/
structure HealthCheck where
  path : String
  healthyHttpCodes : String
deriving DecidableEq, Repr

/-- Task-count autoscaling state created by `autoScaleTaskCount` and the
`scaleOn*Utilization` calls. -/
structure TaskAutoScaling where
  minCapacity : Nat
  maxCapacity : Nat
  cpuScalingId : Option String
  cpuTargetUtilizationPercent : Option Nat
  memoryScalingId : Option String
  memoryTargetUtilizationPercent : Option Nat
deriving DecidableEq, Repr

/-- `ecsPatterns.ApplicationLoadBalancedFargateService`: the pattern bundles a
Fargate service, an application load balancer with a target group, and a
service security group it creates itself. -/
structure ApplicationLoadBalancedFargateService where
  id : String
  clusterId : String
  cpu : Nat
  memoryLimitMiB : Nat
  desiredCount : Nat
  image : String
  containerPort : Nat
  environment : List (String × AttrRef)
  publicLoadBalancer : Bool
  securityGroupIds : List String
  healthCheck : Option HealthCheck
  taskScaling : Option TaskAutoScaling
deriving DecidableEq, Repr

/-- Construct the load-balanced Fargate service pattern; the CDK library
creates one security group for the service, which the stack later reads as
`service.connections.securityGroups[0]`. -/
def mkApplicationLoadBalancedFargateService (id clusterId : String)
    (cpu memoryLimitMiB desiredCount : Nat) (image : String) (containerPort : Nat)
    (environment : List (String × AttrRef)) (publicLoadBalancer : Bool) :
    ApplicationLoadBalancedFargateService :=
  { id := id, clusterId := clusterId, cpu := cpu, memoryLimitMiB := memoryLimitMiB,
    desiredCount := desiredCount, image := image, containerPort := containerPort,
    environment := environment, publicLoadBalancer := publicLoadBalancer,
    securityGroupIds := [id ++ "/Service/SecurityGroup"],
    healthCheck := none, taskScaling := none }

/-- `fargateService.targetGroup.configureHealthCheck({...})`. -/
def ApplicationLoadBalancedFargateService.configureHealthCheck
    (s : ApplicationLoadBalancedFargateService) (hc : HealthCheck) :
    ApplicationLoadBalancedFargateService :=
  { s with healthCheck := some hc }

/-- `fargateService.service.autoScaleTaskCount({ minCapacity, maxCapacity })`. -/
def ApplicationLoadBalancedFargateService.autoScaleTaskCount
    (s : ApplicationLoadBalancedFargateService) (minCapacity maxCapacity : Nat) :
    ApplicationLoadBalancedFargateService :=
  { s with taskScaling := some ⟨minCapacity, maxCapacity, none, none, none, none⟩ }

/-- `scaling.scaleOnCpuUtilization(id, { targetUtilizationPercent })`. -/
def ApplicationLoadBalancedFargateService.scaleOnCpuUtilization
    (s : ApplicationLoadBalancedFargateService) (scalingId : String) (pct : Nat) :
    ApplicationLoadBalancedFargateService :=
  { s with taskScaling := s.taskScaling.map fun t =>
      { t with cpuScalingId := some scalingId, cpuTargetUtilizationPercent := some pct } }

/-- `scaling.scaleOnMemoryUtilization(id, { targetUtilizationPercent })`. -/
def ApplicationLoadBalancedFargateService.scaleOnMemoryUtilization
    (s : ApplicationLoadBalancedFargateService) (scalingId : String) (pct : Nat) :
    ApplicationLoadBalancedFargateService :=
  { s with taskScaling := s.taskScaling.map fun t =>
      { t with memoryScalingId := some scalingId, memoryTargetUtilizationPercent := some pct } }

/-- Machine images named in the source. -/
inductive MachineImage
  | latestAmazonLinux2
deriving DecidableEq, Repr

/-- `iam.Role` as declared for the EC2 instances. -/
structure Role where
  id : String
  assumedByService : String
  managedPolicyNames : List String
deriving DecidableEq, Repr

/-- `autoscaling.AutoScalingGroup` construct properties plus accumulated tags. -/
structure AutoScalingGroup where
  id : String
  vpcId : String
  vpcSubnets : SubnetSelection
  instanceType : InstanceType
  machineImage : MachineImage
  roleId : String
  securityGroupId : String
  minCapacity : Nat
  maxCapacity : Nat
  desiredCapacity : Nat
  tags : List (String × String)
deriving DecidableEq, Repr

/-- `cdk.Tags.of(asg).add(key, value)`. -/
def AutoScalingGroup.addTag (a : AutoScalingGroup) (key value : String) :
    AutoScalingGroup :=
  { a with tags := a.tags ++ [(key, value)] }

/-- Deployment environment of `cdk.StackProps`. -/
structure Env where
  account : Option String
  region : Option String
deriving DecidableEq, Repr

/-- `cdk.StackProps` fields used by `bin/demo-cdk.ts`. -/
structure StackProps where
  env : Option Env
  description : Option String
deriving DecidableEq, Repr

end InfraDemo

namespace InfraDemo

/-- The resource graph declared by the `DemoCdkStack` constructor. -/
structure DemoCdkStack where
  stackId : String
  props : StackProps
  vpc : Vpc
  cluster : Cluster
  dbSecurityGroup : SecurityGroup
  database : DatabaseInstance
  fargateService : ApplicationLoadBalancedFargateService
  ec2SecurityGroup : SecurityGroup
  ec2Role : Role
  webTierAsg : AutoScalingGroup
  appTierAsg : AutoScalingGroup
  workerTierAsg : AutoScalingGroup
  memoryTierAsg : AutoScalingGroup
  ecsEc2Cluster : Cluster
  outputs : List CfnOutput
deriving DecidableEq, Repr

/-- The `DemoCdkStack` constructor of `lib/demo-cdk-stack.ts`, transcribed
declaration by declaration in source order. -/
def buildDemoCdkStack (stackId : String) (props : StackProps) : DemoCdkStack :=
  let vpc : Vpc :=
    { id := "DemoVpc", maxAzs := 2, natGateways := 1,
      subnetConfiguration :=
        [ ⟨"Public", SubnetType.publicSubnet, 24⟩,
          ⟨"Private", SubnetType.privateWithEgress, 24⟩,
          ⟨"Isolated", SubnetType.privateIsolated, 24⟩ ] }
  let cluster : Cluster :=
    { id := "DemoCluster", vpcId := vpc.id, clusterName := none,
      containerInsights := true, capacities := [] }
  let dbSecurityGroup0 : SecurityGroup :=
    { id := "DbSecurityGroup", vpcId := vpc.id,
      description := "Security group for RDS instance",
      allowAllOutbound := false, ingressRules := [] }
  let database : DatabaseInstance :=
    { id := "DemoDatabase",
      engine := DatabaseEngine.postgres "15",
      instanceType := InstanceType.of InstanceClass.t3 InstanceSize.micro,
      vpcId := vpc.id,
      vpcSubnets := ⟨SubnetType.privateIsolated⟩,
      securityGroupIds := [dbSecurityGroup0.id],
      databaseName := some "demodb",
      allocatedStorage := 20,
      maxAllocatedStorage := 100,
      multiAz := false,
      licenseModel := none,
      deletionProtection := false,
      removalPolicy := RemovalPolicy.destroy }
  let fargateService0 :=
    mkApplicationLoadBalancedFargateService "DemoWebApp" cluster.id 256 512 2
      "nginx:alpine" 80
      [ ("DB_HOST", AttrRef.dbEndpointAddress database.id),
        ("DB_PORT", AttrRef.dbEndpointPort database.id) ]
      true
  let dbSecurityGroup :=
    dbSecurityGroup0.addIngressRule
      (Peer.securityGroupRef (fargateService0.securityGroupIds.getD 0 ""))
      (Port.tcp 5432)
      "Allow Fargate service to connect to PostgreSQL"
  let fargateService1 :=
    fargateService0.configureHealthCheck ⟨"/", "200"⟩
  let fargateService2 := fargateService1.autoScaleTaskCount 2 10
  let fargateService3 := fargateService2.scaleOnCpuUtilization "CpuScaling" 70
  let fargateService := fargateService3.scaleOnMemoryUtilization "MemoryScaling" 70
  let ec2SecurityGroup0 : SecurityGroup :=
    { id := "Ec2SecurityGroup", vpcId := vpc.id,
      description := "Security group for EC2 instances",
      allowAllOutbound := true, ingressRules := [] }
  let ec2SecurityGroup :=
    ec2SecurityGroup0.addIngressRule Peer.anyIpv4 (Port.tcp 22) "Allow SSH access"
  let ec2Role : Role :=
    { id := "Ec2InstanceRole", assumedByService := "ec2.amazonaws.com",
      managedPolicyNames := ["AmazonSSMManagedInstanceCore"] }
  let webTierAsg0 : AutoScalingGroup :=
    { id := "WebTierAsg", vpcId := vpc.id,
      vpcSubnets := ⟨SubnetType.privateWithEgress⟩,
      instanceType := InstanceType.of InstanceClass.m4 InstanceSize.large,
      machineImage := MachineImage.latestAmazonLinux2,
      roleId := ec2Role.id, securityGroupId := ec2SecurityGroup.id,
      minCapacity := 2, maxCapacity := 8, desiredCapacity := 2, tags := [] }
  let webTierAsg := (webTierAsg0.addTag "Tier" "Web").addTag "InstanceGeneration" "Previous"
  let appTierAsg0 : AutoScalingGroup :=
    { id := "AppTierAsg", vpcId := vpc.id,
      vpcSubnets := ⟨SubnetType.privateWithEgress⟩,
      instanceType := InstanceType.of InstanceClass.c4 InstanceSize.xlarge,
      machineImage := MachineImage.latestAmazonLinux2,
      roleId := ec2Role.id, securityGroupId := ec2SecurityGroup.id,
      minCapacity := 2, maxCapacity := 6, desiredCapacity := 2, tags := [] }
  let appTierAsg := (appTierAsg0.addTag "Tier" "Application").addTag "InstanceGeneration" "Previous"
  let workerTierAsg0 : AutoScalingGroup :=
    { id := "WorkerTierAsg", vpcId := vpc.id,
      vpcSubnets := ⟨SubnetType.privateWithEgress⟩,
      instanceType := InstanceType.of InstanceClass.t2 InstanceSize.large,
      machineImage := MachineImage.latestAmazonLinux2,
      roleId := ec2Role.id, securityGroupId := ec2SecurityGroup.id,
      minCapacity := 1, maxCapacity := 10, desiredCapacity := 3, tags := [] }
  let workerTierAsg := (workerTierAsg0.addTag "Tier" "Worker").addTag "InstanceGeneration" "Previous"
  let memoryTierAsg0 : AutoScalingGroup :=
    { id := "MemoryTierAsg", vpcId := vpc.id,
      vpcSubnets := ⟨SubnetType.privateWithEgress⟩,
      instanceType := InstanceType.of InstanceClass.r4 InstanceSize.large,
      machineImage := MachineImage.latestAmazonLinux2,
      roleId := ec2Role.id, securityGroupId := ec2SecurityGroup.id,
      minCapacity := 1, maxCapacity := 4, desiredCapacity := 2, tags := [] }
  let memoryTierAsg := (memoryTierAsg0.addTag "Tier" "Memory").addTag "InstanceGeneration" "Previous"
  let ecsEc2Cluster0 : Cluster :=
    { id := "LegacyEcsCluster", vpcId := vpc.id,
      clusterName := some "legacy-ec2-cluster",
      containerInsights := false, capacities := [] }
  let ecsEc2Cluster1 :=
    ecsEc2Cluster0.addCapacity "LegacyCapacity"
      (InstanceType.of InstanceClass.c3 InstanceSize.xlarge) 2 6 2
  let ecsEc2Cluster :=
    ecsEc2Cluster1.addCapacity "LegacyCapacityM3"
      (InstanceType.of InstanceClass.m3 InstanceSize.large) 1 4 2
  { stackId := stackId, props := props,
    vpc := vpc, cluster := cluster,
    dbSecurityGroup := dbSecurityGroup, database := database,
    fargateService := fargateService,
    ec2SecurityGroup := ec2SecurityGroup, ec2Role := ec2Role,
    webTierAsg := webTierAsg, appTierAsg := appTierAsg,
    workerTierAsg := workerTierAsg, memoryTierAsg := memoryTierAsg,
    ecsEc2Cluster := ecsEc2Cluster,
    outputs :=
      [ ⟨"LoadBalancerDNS", AttrRef.loadBalancerDns fargateService.id,
          "Application Load Balancer DNS name"⟩,
        ⟨"VpcId", AttrRef.vpcIdOf vpc.id, "VPC ID"⟩,
        ⟨"DatabaseEndpoint", AttrRef.dbEndpointAddress database.id,
          "RDS Database endpoint"⟩,
        ⟨"WebTierAsgName", AttrRef.asgNameOf webTierAsg.id,
          "Web tier ASG name (M4 instances)"⟩,
        ⟨"LegacyEcsClusterName", AttrRef.clusterNameOf ecsEc2Cluster.id,
          "Legacy ECS cluster with EC2 capacity"⟩ ] }

/-- The four auto-scaling compute pools of the stack, in declaration order. -/
def DemoCdkStack.asgs (s : DemoCdkStack) : List AutoScalingGroup :=
  [s.webTierAsg, s.appTierAsg, s.workerTierAsg, s.memoryTierAsg]

/-- The resource graph declared by the `SqlServerBahrainStack` constructor. -/
structure SqlServerBahrainStack where
  stackId : String
  props : StackProps
  vpc : Vpc
  sqlServerSecurityGroup : SecurityGroup
  sqlServerDatabase : DatabaseInstance
  outputs : List CfnOutput
deriving DecidableEq, Repr

/-- The `SqlServerBahrainStack` constructor of `lib/demo-cdk-stack.ts`,
transcribed declaration by declaration in source order. -/
def buildSqlServerBahrainStack (stackId : String) (props : StackProps) :
    SqlServerBahrainStack :=
  let vpc : Vpc :=
    { id := "SqlServerVpc", maxAzs := 2, natGateways := 1,
      subnetConfiguration :=
        [ ⟨"Public", SubnetType.publicSubnet, 24⟩,
          ⟨"Private", SubnetType.privateWithEgress, 24⟩,
          ⟨"Isolated", SubnetType.privateIsolated, 24⟩ ] }
  let sqlServerSecurityGroup : SecurityGroup :=
    { id := "SqlServerSecurityGroup", vpcId := vpc.id,
      description := "Security group for SQL Server RDS instance",
      allowAllOutbound := false, ingressRules := [] }
  let sqlServerDatabase : DatabaseInstance :=
    { id := "SqlServerEnterprise",
      engine := DatabaseEngine.sqlServerEe "15",
      instanceType := InstanceType.of InstanceClass.r5 InstanceSize.xlarge24,
      vpcId := vpc.id,
      vpcSubnets := ⟨SubnetType.privateIsolated⟩,
      securityGroupIds := [sqlServerSecurityGroup.id],
      databaseName := none,
      allocatedStorage := 200,
      maxAllocatedStorage := 1000,
      multiAz := true,
      licenseModel := some LicenseModel.licenseIncluded,
      deletionProtection := false,
      removalPolicy := RemovalPolicy.destroy }
  { stackId := stackId, props := props,
    vpc := vpc, sqlServerSecurityGroup := sqlServerSecurityGroup,
    sqlServerDatabase := sqlServerDatabase,
    outputs :=
      [ ⟨"SqlServerEndpoint", AttrRef.dbEndpointAddress sqlServerDatabase.id,
          "SQL Server Enterprise endpoint"⟩,
        ⟨"SqlServerVpcId", AttrRef.vpcIdOf vpc.id, "SQL Server VPC ID"⟩ ] }

/-- The app of `bin/demo-cdk.ts` instantiates `DemoCdkStack` with no `env`. -/
def demoCdkStack : DemoCdkStack :=
  buildDemoCdkStack "DemoCdkStack" { env := none, description := none }

/-- The app of `bin/demo-cdk.ts` instantiates `SqlServerBahrainStack` in
region `me-south-1` with a description. -/
def sqlServerBahrainStack : SqlServerBahrainStack :=
  buildSqlServerBahrainStack "SqlServerBahrainStack"
    { env := some { account := none, region := some "me-south-1" },
      description := some
        "SQL Server Enterprise Multi-AZ (db.r5.24xlarge) in Bahrain region" }

end InfraDemo

namespace InfraDemo

/-- C1: In the Primary Application Stack, the database security group is
declared with outbound traffic disallowed and exactly one ingress permission,
allowing the load-balanced service's discovered security group to reach TCP
port 5432; every ingress rule targets that single source and port, so no
other source is admitted. -/
theorem C1_db_security_group_single_ingress :
    demoCdkStack.dbSecurityGroup.allowAllOutbound = false ∧
    demoCdkStack.dbSecurityGroup.ingressRules =
      [⟨Peer.securityGroupRef (demoCdkStack.fargateService.securityGroupIds.getD 0 ""),
        Port.tcp 5432, "Allow Fargate service to connect to PostgreSQL"⟩] ∧
    ∀ r ∈ demoCdkStack.dbSecurityGroup.ingressRules,
      r.source = Peer.securityGroupRef
          (demoCdkStack.fargateService.securityGroupIds.getD 0 "") ∧
      r.port = Port.tcp 5432 := by decide

/-- C2: every auto-scaling group of the Primary Application Stack satisfies
minCapacity ≤ desiredCapacity ≤ maxCapacity; the four pools carry the Tier
tags Web, Application, Worker, Memory; the web tier declares 2 ≤ 2 ≤ 8 and
the worker tier declares 1 ≤ 3 ≤ 10. -/
theorem C2_asg_capacity_bounds :
    (∀ a ∈ demoCdkStack.asgs,
        a.minCapacity ≤ a.desiredCapacity ∧ a.desiredCapacity ≤ a.maxCapacity) ∧
    demoCdkStack.asgs.map (fun a => a.tags.lookup "Tier") =
      [some "Web", some "Application", some "Worker", some "Memory"] ∧
    (demoCdkStack.webTierAsg.minCapacity, demoCdkStack.webTierAsg.desiredCapacity,
      demoCdkStack.webTierAsg.maxCapacity) = (2, 2, 8) ∧
    (demoCdkStack.workerTierAsg.minCapacity, demoCdkStack.workerTierAsg.desiredCapacity,
      demoCdkStack.workerTierAsg.maxCapacity) = (1, 3, 10) := by decide

/-- C3: for each database instance declared in either stack,
allocatedStorage ≤ maxAllocatedStorage: the demo stack declares 20 ≤ 100 and
the Bahrain stack declares 200 ≤ 1000. -/
theorem C3_storage_bounds :
    demoCdkStack.database.allocatedStorage = 20 ∧
    demoCdkStack.database.maxAllocatedStorage = 100 ∧
    sqlServerBahrainStack.sqlServerDatabase.allocatedStorage = 200 ∧
    sqlServerBahrainStack.sqlServerDatabase.maxAllocatedStorage = 1000 ∧
    demoCdkStack.database.allocatedStorage ≤
      demoCdkStack.database.maxAllocatedStorage ∧
    sqlServerBahrainStack.sqlServerDatabase.allocatedStorage ≤
      sqlServerBahrainStack.sqlServerDatabase.maxAllocatedStorage := by decide

/-- C4: the Bahrain stack database is declared with multiAz set to true and
its subnet selection is exactly the fully isolated subnet tier. -/
theorem C4_bahrain_multiaz_isolated :
    sqlServerBahrainStack.sqlServerDatabase.multiAz = true ∧
    sqlServerBahrainStack.sqlServerDatabase.vpcSubnets =
      ⟨SubnetType.privateIsolated⟩ := by decide

/-- C5: the stack constructors are deterministic functions of their
arguments: constructing the same stack declaration twice from the same
inputs yields an identical resource graph, with no divergence between
two runs. -/
theorem C5_deterministic_construction :
    ∀ (stackId : String) (props : StackProps),
      buildDemoCdkStack stackId props = buildDemoCdkStack stackId props ∧
      buildSqlServerBahrainStack stackId props =
        buildSqlServerBahrainStack stackId props :=
  fun _ _ => ⟨rfl, rfl⟩

/-- C6 counterexample: the secondary cluster does not have exactly two
fixed-capacity pools; in fact none of its attached capacity pools has
minimum capacity equal to maximum capacity (they declare 2/6 and 1/4). -/
theorem C6_counterexample_no_fixed_capacity_pools :
    ¬ ((demoCdkStack.ecsEc2Cluster.capacities.filter
          (fun c => c.minCapacity == c.maxCapacity)).length = 2) := by decide

/-- C6 (amended): the Primary Application Stack's second, separately named
container cluster (legacy-ec2-cluster) has exactly two compute pools
attached, each with a fixed desired capacity of 2, declared with variable
bounds LegacyCapacity min 2 max 6 and LegacyCapacityM3 min 1 max 4, so in
neither pool does minimum capacity equal maximum capacity. -/
theorem C6_amended_two_bounded_pools :
    demoCdkStack.ecsEc2Cluster.clusterName = some "legacy-ec2-cluster" ∧
    demoCdkStack.ecsEc2Cluster.id ≠ demoCdkStack.cluster.id ∧
    demoCdkStack.ecsEc2Cluster.capacities.map
        (fun c => (c.capacityId, c.minCapacity, c.maxCapacity, c.desiredCapacity)) =
      [("LegacyCapacity", 2, 6, 2), ("LegacyCapacityM3", 1, 4, 2)] ∧
    ∀ c ∈ demoCdkStack.ecsEc2Cluster.capacities,
      c.minCapacity ≠ c.maxCapacity := by decide

/-- C7: the public load-balanced container service scales its task count
between 2 and 10 replicas, its CPU and memory autoscaling triggers both
target 70 percent utilization, and its health check probes path / and treats
only HTTP status 200 as healthy. -/
theorem C7_fargate_scaling_and_health :
    demoCdkStack.fargateService.publicLoadBalancer = true ∧
    demoCdkStack.fargateService.taskScaling =
      some ⟨2, 10, some "CpuScaling", some 70, some "MemoryScaling", some 70⟩ ∧
    demoCdkStack.fargateService.healthCheck = some ⟨"/", "200"⟩ := by decide

/-- C8: the Primary Application Stack declares exactly five named outputs:
the load balancer DNS name, the VPC identifier, the database endpoint
address, the web tier auto-scaling-group name, and the secondary cluster
name. -/
theorem C8_five_outputs :
    demoCdkStack.outputs.map (fun o => (o.id, o.value)) =
      [ ("LoadBalancerDNS", AttrRef.loadBalancerDns "DemoWebApp"),
        ("VpcId", AttrRef.vpcIdOf "DemoVpc"),
        ("DatabaseEndpoint", AttrRef.dbEndpointAddress "DemoDatabase"),
        ("WebTierAsgName", AttrRef.asgNameOf "WebTierAsg"),
        ("LegacyEcsClusterName", AttrRef.clusterNameOf "LegacyEcsCluster") ] ∧
    demoCdkStack.outputs.length = 5 := by decide

/-- C9: the Primary Application Stack database is declared single-zone
(multiAz false), placed in the isolated subnet tier, with deletion
protection disabled and a destroy removal policy. -/
theorem C9_demo_database_lifecycle :
    demoCdkStack.database.multiAz = false ∧
    demoCdkStack.database.vpcSubnets = ⟨SubnetType.privateIsolated⟩ ∧
    demoCdkStack.database.deletionProtection = false ∧
    demoCdkStack.database.removalPolicy = RemovalPolicy.destroy := by decide

/-- C10: the security group shared by all four auto-scaling pools allows all
outbound traffic and admits SSH ingress on TCP port 22 from any IPv4
address; every one of the four pools is attached to that security group. -/
theorem C10_ec2_sg_open_ssh :
    demoCdkStack.ec2SecurityGroup.allowAllOutbound = true ∧
    demoCdkStack.ec2SecurityGroup.ingressRules =
      [⟨Peer.anyIpv4, Port.tcp 22, "Allow SSH access"⟩] ∧
    ∀ a ∈ demoCdkStack.asgs,
      a.securityGroupId = demoCdkStack.ec2SecurityGroup.id := by decide

end InfraDemo
